import Mathlib

/-!
Shallow embedding of `src/Adafruit_ILI9341.cpp` (tsandmann/Adafruit_ILI9341).

The driver issues byte sequences over an abstract SPI transport
(`startWrite`/`endWrite`/`writeCommand`/`spiWrite`/`spiRead`/`SPI_WRITE16`/`delay`).
We model every transport call as an event in a trace, and the few in-memory
fields the driver touches (`_rst`, `rotation`, `_width`, `_height`) as a record.
Machine integers are `Nat` with explicit `% 2^w` where C truncation occurs.
-/

namespace ILI9341

/-- One transport-level action observable at the driver's lower interface:
`cmd` is `writeCommand`, `data` is `spiWrite` (one byte), `wait` is `delay`,
`startW`/`endW` are `startWrite`/`endWrite` (scoped bus acquisition), and
`readB` is `spiRead` (one byte read back). -/
inductive Ev where
  | cmd (b : Nat)
  | data (b : Nat)
  | wait (ms : Nat)
  | startW
  | endW
  | readB
deriving DecidableEq, Repr

/-- The in-memory fields of the driver object that the code in
`Adafruit_ILI9341.cpp` reads or writes: the reset-pin number `_rst`
(negative is the "no pin" sentinel), and the inherited `rotation`,
`_width`, `_height` fields. -/
structure DriverState where
  rst : Int
  rotation : Nat
  width : Nat
  height : Nat
deriving DecidableEq, Repr

/-! Constants. `MADCTL_*` are macros defined in `Adafruit_ILI9341.cpp` itself;
the `ILI9341_*` opcodes and panel dimensions come from the repository header
`Adafruit_ILI9341.h`, which is not under `src/`; the values used are the
standard ILI9341 opcodes the spec's command names refer to (the claims below
depend only on the names, not on these numerals). -/

def ILI9341_TFTWIDTH : Nat := 240
def ILI9341_TFTHEIGHT : Nat := 320
def ILI9341_SWRESET : Nat := 0x01
def ILI9341_SLPOUT : Nat := 0x11
def ILI9341_INVOFF : Nat := 0x20
def ILI9341_INVON : Nat := 0x21
def ILI9341_GAMMASET : Nat := 0x26
def ILI9341_DISPON : Nat := 0x29
def ILI9341_CASET : Nat := 0x2A
def ILI9341_PASET : Nat := 0x2B
def ILI9341_RAMWR : Nat := 0x2C
def ILI9341_MADCTL : Nat := 0x36
def ILI9341_VSCRSADD : Nat := 0x37
def ILI9341_PIXFMT : Nat := 0x3A
def ILI9341_FRMCTR1 : Nat := 0xB1
def ILI9341_DFUNCTR : Nat := 0xB6
def ILI9341_PWCTR1 : Nat := 0xC0
def ILI9341_PWCTR2 : Nat := 0xC1
def ILI9341_VMCTR1 : Nat := 0xC5
def ILI9341_VMCTR2 : Nat := 0xC7
def ILI9341_GMCTRP1 : Nat := 0xE0
def ILI9341_GMCTRN1 : Nat := 0xE1

def MADCTL_MY : Nat := 0x80
def MADCTL_MX : Nat := 0x40
def MADCTL_MV : Nat := 0x20
def MADCTL_BGR : Nat := 0x08

/-- `SPI_WRITE16(v)`: a 16-bit value goes out big-endian as two data bytes. -/
def w16 (v : Nat) : List Ev := [Ev.data (v / 256 % 256), Ev.data (v % 256)]

/-- The literal bytes of the `static const uint8_t initcmd[]` table
(`Adafruit_ILI9341.cpp`, lines 68-84), sentinel `0x00` included. -/
def initcmd : List Nat := [
  0xEF, 3, 0x03, 0x80, 0x02,
  0xCF, 3, 0x00, 0xC1, 0x30,
  0xED, 4, 0x64, 0x03, 0x12, 0x81,
  0xE8, 3, 0x85, 0x00, 0x78,
  0xCB, 5, 0x39, 0x2C, 0x00, 0x34, 0x02,
  0xF7, 1, 0x20,
  0xEA, 2, 0x00, 0x00,
  ILI9341_PWCTR1, 1, 0x23,
  ILI9341_PWCTR2, 1, 0x10,
  ILI9341_VMCTR1, 2, 0x3E, 0x28,
  ILI9341_VMCTR2, 1, 0x86,
  ILI9341_MADCTL, 1, 0x48,
  ILI9341_VSCRSADD, 1, 0x00,
  ILI9341_PIXFMT, 1, 0x55,
  ILI9341_FRMCTR1, 2, 0x00, 0x18,
  ILI9341_DFUNCTR, 3, 0x08, 0x82, 0x27,
  0xF2, 1, 0x00,
  ILI9341_GAMMASET, 1, 0x01,
  ILI9341_GMCTRP1, 15, 0x0F, 0x31, 0x2B, 0x0C, 0x0E, 0x08,
  0x4E, 0xF1, 0x37, 0x07, 0x10, 0x03, 0x0E, 0x09, 0x00,
  ILI9341_GMCTRN1, 15, 0x00, 0x0E, 0x14, 0x03, 0x11, 0x07,
  0x31, 0xC1, 0x48, 0x08, 0x0F, 0x0C, 0x31, 0x36, 0x0F,
  ILI9341_SLPOUT, 0x80,
  ILI9341_DISPON, 0x80,
  0x00]

/-- The interpreter loop of `begin` (lines 105-115): read a command byte, stop
if it is the sentinel 0; otherwise read the length byte `x`, issue the command,
write `x & 0x7F` argument bytes verbatim, and delay 150 if `x & 0x80` is set.
Fuel makes the recursion structural; each step consumes at least two bytes of
the list while using one unit of fuel, so `fuel = list length` suffices (see
`runInitTable`). On a list exhausted before the sentinel the C code would read
past the table (undefined behavior); the model stops instead, which is never
exercised on the well-formed `initcmd`. -/
def initInterp : Nat → List Nat → List Ev
  | 0, _ => []
  | _ + 1, [] => []
  | fuel + 1, c :: rest =>
    if c = 0 then []
    else
      match rest with
      | [] => [Ev.cmd c]
      | x :: rest2 =>
        Ev.cmd c :: ((rest2.take (x % 128)).map Ev.data ++
          ((if 128 ≤ x then [Ev.wait 150] else []) ++
            initInterp fuel (rest2.drop (x % 128))))

/-- The table interpretation of `begin`, with enough fuel for the whole table. -/
def runInitTable (l : List Nat) : List Ev := initInterp l.length l

/-- `Adafruit_ILI9341::begin(freq)` (lines 86-121): after `initSPI(freq)`
(transport configuration, out of scope), if `_rst < 0` a software reset and
sleep-out are issued each in its own transaction with 200 and 10 unit delays;
then the init table is interpreted inside one transaction; finally `_width`
and `_height` are set to the native dimensions. Returns (new state, trace). -/
def begin (freq : Nat) (s : DriverState) : DriverState × List Ev :=
  let _ := freq
  ({ s with width := ILI9341_TFTWIDTH, height := ILI9341_TFTHEIGHT },
   (if s.rst < 0 then
      [Ev.startW, Ev.cmd ILI9341_SWRESET, Ev.endW, Ev.wait 200,
       Ev.startW, Ev.cmd ILI9341_SLPOUT, Ev.endW, Ev.wait 10]
    else []) ++
   (Ev.startW :: (runInitTable initcmd ++ [Ev.endW])))

/-- `Adafruit_ILI9341::setRotation(m)` (lines 123-152): stores `m % 4` in
`rotation`, picks the MADCTL byte and the (width, height) pair by the switch,
and writes MADCTL plus the byte in one transaction. -/
def setRotation (m : Nat) (s : DriverState) : DriverState × List Ev :=
  let rot := m % 4
  let mb : Nat :=
    match rot with
    | 0 => MADCTL_MX ||| MADCTL_BGR
    | 1 => MADCTL_MV ||| MADCTL_BGR
    | 2 => MADCTL_MY ||| MADCTL_BGR
    | _ => MADCTL_MX ||| MADCTL_MY ||| MADCTL_MV ||| MADCTL_BGR
  let wh : Nat × Nat :=
    match rot with
    | 0 => (ILI9341_TFTWIDTH, ILI9341_TFTHEIGHT)
    | 1 => (ILI9341_TFTHEIGHT, ILI9341_TFTWIDTH)
    | 2 => (ILI9341_TFTWIDTH, ILI9341_TFTHEIGHT)
    | _ => (ILI9341_TFTHEIGHT, ILI9341_TFTWIDTH)
  ({ s with rotation := rot, width := wh.1, height := wh.2 },
   [Ev.startW, Ev.cmd ILI9341_MADCTL, Ev.data mb, Ev.endW])

/-- `Adafruit_ILI9341::invertDisplay(invert)` (lines 154-158). -/
def invertDisplay (invert : Bool) (s : DriverState) : DriverState × List Ev :=
  (s, [Ev.startW, Ev.cmd (if invert then ILI9341_INVON else ILI9341_INVOFF), Ev.endW])

/-- `Adafruit_ILI9341::scrollTo(y)` (lines 160-165). -/
def scrollTo (y : Nat) (s : DriverState) : DriverState × List Ev :=
  (s, [Ev.startW, Ev.cmd ILI9341_VSCRSADD] ++ w16 y ++ [Ev.endW])

/-- `Adafruit_ILI9341::setAddrWindow(x1, y1, w, h)` (lines 167-177), a `const`
member: no state is read or written. `static_cast<uint16_t>(x1 + w - 1U)` is
unsigned arithmetic followed by truncation, i.e. `(x1 + w - 1) mod 2^16`,
written on `Nat` as `(x1 + w + 65535) % 65536`. -/
def setAddrWindow (x1 y1 w h : Nat) : List Ev :=
  let x2 := (x1 + w + 65535) % 65536
  let y2 := (y1 + h + 65535) % 65536
  [Ev.cmd ILI9341_CASET] ++ w16 x1 ++ w16 x2 ++
  [Ev.cmd ILI9341_PASET] ++ w16 y1 ++ w16 y2 ++
  [Ev.cmd ILI9341_RAMWR]

/-- `Adafruit_ILI9341::readcommand8(command, index)` (lines 179-187). The
byte delivered by `spiRead()` is external input, passed as `r`. The argument
to `spiWrite(0x10 + index)` is truncated to its `uint8_t` parameter. Returns
(state, returned byte, trace). -/
def readcommand8 (command index : Nat) (r : Nat) (s : DriverState) :
    DriverState × Nat × List Ev :=
  (s, r,
   [Ev.startW, Ev.cmd 0xD9, Ev.data ((0x10 + index) % 256),
    Ev.cmd command, Ev.readB, Ev.endW])

/-! Spec-side model of the command table, for the refinement claim about
`begin`: the spec reads the table as a sequence of records
"(command, argument-count, arguments[, delay-flag])". -/

/-- One initialization record as the spec describes it: a command byte, a
delay-after flag (the length byte's high bit), and the argument bytes. -/
structure InitRec where
  cmd : Nat
  delayAfter : Bool
  args : List Nat
deriving DecidableEq, Repr

/-- Concatenation of the images of a list, used to avoid version-dependent
names for list flattening. -/
def concatMap (f : α → List β) : List α → List β
  | [] => []
  | a :: t => f a ++ concatMap f t

/-- Byte encoding of one record: command byte, then the length byte
(argument count with 0x80 set when a delay follows), then the arguments. -/
def encodeRec (r : InitRec) : List Nat :=
  r.cmd :: (r.args.length + (if r.delayAfter then 128 else 0)) :: r.args

/-- Byte encoding of a record table, terminated by the sentinel 0. -/
def encodeTable (rs : List InitRec) : List Nat :=
  concatMap encodeRec rs ++ [0]

/-- Modelled from the spec: the transport events one record produces — "issue
the command, then write numArgs argument bytes verbatim; if the high bit of
length is set, wait 150 time-units after sending this record's arguments". -/
def specRecEvents (r : InitRec) : List Ev :=
  Ev.cmd r.cmd :: (r.args.map Ev.data ++ (if r.delayAfter then [Ev.wait 150] else []))

/-- Modelled from the spec: the transport events of a whole record table. -/
def specTableEvents (rs : List InitRec) : List Ev :=
  concatMap specRecEvents rs

/-- A record is encodable: its command is not the sentinel and its argument
count fits the 7-bit field. -/
def validRec (r : InitRec) : Bool :=
  decide (r.cmd ≠ 0) && decide (r.args.length < 128)

/-- The `initcmd` table parsed into records. -/
def ili9341Records : List InitRec := [
  ⟨0xEF, false, [0x03, 0x80, 0x02]⟩,
  ⟨0xCF, false, [0x00, 0xC1, 0x30]⟩,
  ⟨0xED, false, [0x64, 0x03, 0x12, 0x81]⟩,
  ⟨0xE8, false, [0x85, 0x00, 0x78]⟩,
  ⟨0xCB, false, [0x39, 0x2C, 0x00, 0x34, 0x02]⟩,
  ⟨0xF7, false, [0x20]⟩,
  ⟨0xEA, false, [0x00, 0x00]⟩,
  ⟨ILI9341_PWCTR1, false, [0x23]⟩,
  ⟨ILI9341_PWCTR2, false, [0x10]⟩,
  ⟨ILI9341_VMCTR1, false, [0x3E, 0x28]⟩,
  ⟨ILI9341_VMCTR2, false, [0x86]⟩,
  ⟨ILI9341_MADCTL, false, [0x48]⟩,
  ⟨ILI9341_VSCRSADD, false, [0x00]⟩,
  ⟨ILI9341_PIXFMT, false, [0x55]⟩,
  ⟨ILI9341_FRMCTR1, false, [0x00, 0x18]⟩,
  ⟨ILI9341_DFUNCTR, false, [0x08, 0x82, 0x27]⟩,
  ⟨0xF2, false, [0x00]⟩,
  ⟨ILI9341_GAMMASET, false, [0x01]⟩,
  ⟨ILI9341_GMCTRP1, false,
    [0x0F, 0x31, 0x2B, 0x0C, 0x0E, 0x08, 0x4E, 0xF1, 0x37, 0x07, 0x10, 0x03, 0x0E, 0x09, 0x00]⟩,
  ⟨ILI9341_GMCTRN1, false,
    [0x00, 0x0E, 0x14, 0x03, 0x11, 0x07, 0x31, 0xC1, 0x48, 0x08, 0x0F, 0x0C, 0x31, 0x36, 0x0F]⟩,
  ⟨ILI9341_SLPOUT, true, []⟩,
  ⟨ILI9341_DISPON, true, []⟩]

/-! Scope discipline of traces: which events sit inside a
`startWrite`/`endWrite` bus acquisition. -/

/-- An event that is neither `startWrite` nor `endWrite`. -/
def notScope : Ev → Bool
  | Ev.startW => false
  | Ev.endW => false
  | _ => true

/-- A trace touches the bus scope nowhere. -/
def noScope (t : List Ev) : Bool := t.all notScope

/-- Scope checker: `scopedAux b t` holds when, starting with the bus
held iff `b`, transactions never nest, every write and read happens with the
bus held, and the bus is released at the end. Delays may occur anywhere. -/
def scopedAux : Bool → List Ev → Bool
  | b, [] => !b
  | b, Ev.startW :: t => !b && scopedAux true t
  | b, Ev.endW :: t => b && scopedAux false t
  | b, Ev.cmd _ :: t => b && scopedAux b t
  | b, Ev.data _ :: t => b && scopedAux b t
  | b, Ev.readB :: t => b && scopedAux b t
  | b, Ev.wait _ :: t => scopedAux b t

/-- A trace is well scoped: starts and ends with the bus released, no nesting,
all writes and reads inside an acquisition. -/
def scopedOk (t : List Ev) : Bool := scopedAux false t

/-! Helper lemmas. -/

/-- Encoding a record table yields at least one byte per record. -/
theorem length_le_concatMap_encodeRec (rs : List InitRec) :
    rs.length ≤ (concatMap encodeRec rs).length := by
  induction rs with
  | nil => simp [concatMap]
  | cons r t ih =>
    simp only [concatMap, encodeRec, List.length_append, List.length_cons]
    omega

/-- The interpreter loop of `begin`, run on the encoding of a valid record
table followed by the sentinel 0 and arbitrary junk, emits exactly the
spec-described events of the records, for any sufficient fuel. -/
theorem initInterp_encode (rs : List InitRec) :
    ∀ fuel junk, rs.all validRec = true → rs.length < fuel →
      initInterp fuel (concatMap encodeRec rs ++ (0 :: junk)) = specTableEvents rs := by
  induction rs with
  | nil =>
    intro fuel junk _ hf
    match fuel with
    | f + 1 => simp [concatMap, specTableEvents, initInterp]
  | cons r t ih =>
    intro fuel junk hv hf
    match fuel with
    | f + 1 =>
      simp only [List.all_cons, Bool.and_eq_true, validRec, decide_eq_true_eq] at hv
      obtain ⟨⟨hc, hlen⟩, hvt⟩ := hv
      have hmod : (r.args.length + (if r.delayAfter then 128 else 0)) % 128 = r.args.length := by
        cases r.delayAfter <;> simp <;> omega
      have hflag : (128 ≤ r.args.length + (if r.delayAfter then 128 else 0)) = r.delayAfter := by
        cases r.delayAfter <;> simp
        omega
      simp only [concatMap, encodeRec, List.cons_append, List.append_assoc]
      rw [initInterp]
      simp only [if_neg hc, hmod, hflag]
      rw [List.take_left, List.drop_left]
      rw [ih f junk hvt (by simpa using hf)]
      cases hd : r.delayAfter <;>
        simp [hd, specTableEvents, concatMap, specRecEvents, List.append_assoc]

/-- Evaluating the interpreter on the literal table gives the record-level
spec events of the parsed records. -/
theorem runInitTable_initcmd_eq :
    runInitTable initcmd = specTableEvents ili9341Records := by decide

/-- The parsed records encode back to the literal table bytes. -/
theorem encodeTable_ili9341 : encodeTable ili9341Records = initcmd := by decide

/-- The literal table's events contain no bus-scope events. -/
theorem noScope_runInitTable : noScope (runInitTable initcmd) = true := by decide

/-! Claim theorems. -/

/-- C1: for every call to `begin(freq)`, after the optional reset branch the
transport trace is exactly the interpretation of the static `initcmd` table:
the table is the encoding of a list of records; for each record the command
byte is issued, then exactly `length & 0x7F` argument bytes verbatim in table
order, then a 150-unit delay iff bit `0x80` of the length byte is set; the
interpretation stops at the first sentinel-0 command byte no matter what
bytes follow it. -/
theorem begin_trace_is_initcmd_interpretation :
    encodeTable ili9341Records = initcmd ∧
    ili9341Records.all validRec = true ∧
    (∀ junk : List Nat,
      runInitTable (concatMap encodeRec ili9341Records ++ (0 :: junk)) =
        specTableEvents ili9341Records) ∧
    (∀ (freq : Nat) (s : DriverState),
      (begin freq s).2 =
        (if s.rst < 0 then
          [Ev.startW, Ev.cmd ILI9341_SWRESET, Ev.endW, Ev.wait 200,
           Ev.startW, Ev.cmd ILI9341_SLPOUT, Ev.endW, Ev.wait 10]
         else []) ++
        (Ev.startW :: (specTableEvents ili9341Records ++ [Ev.endW]))) := by
  refine ⟨encodeTable_ili9341, by decide, ?_, ?_⟩
  · intro junk
    unfold runInitTable
    apply initInterp_encode
    · decide
    · have hlen := length_le_concatMap_encodeRec ili9341Records
      simp only [List.length_append, List.length_cons]
      omega
  · intro freq s
    simp [begin, runInitTable_initcmd_eq]

/-- C3: `setRotation(r)` for r = 0, 1, 2, 3 writes MADCTL followed by the
single data byte 0x48, 0x28, 0x88, 0xE8 respectively (mirror/swap flags with
the BGR color-order flag), and caches the native (W, H) for r = 0, 2 and the
transposed (H, W) for r = 1, 3. -/
theorem setRotation_four_orientations (s : DriverState) :
    ((setRotation 0 s).2 = [Ev.startW, Ev.cmd ILI9341_MADCTL, Ev.data 0x48, Ev.endW] ∧
      (setRotation 0 s).1.width = ILI9341_TFTWIDTH ∧
      (setRotation 0 s).1.height = ILI9341_TFTHEIGHT) ∧
    ((setRotation 1 s).2 = [Ev.startW, Ev.cmd ILI9341_MADCTL, Ev.data 0x28, Ev.endW] ∧
      (setRotation 1 s).1.width = ILI9341_TFTHEIGHT ∧
      (setRotation 1 s).1.height = ILI9341_TFTWIDTH) ∧
    ((setRotation 2 s).2 = [Ev.startW, Ev.cmd ILI9341_MADCTL, Ev.data 0x88, Ev.endW] ∧
      (setRotation 2 s).1.width = ILI9341_TFTWIDTH ∧
      (setRotation 2 s).1.height = ILI9341_TFTHEIGHT) ∧
    ((setRotation 3 s).2 = [Ev.startW, Ev.cmd ILI9341_MADCTL, Ev.data 0xE8, Ev.endW] ∧
      (setRotation 3 s).1.width = ILI9341_TFTHEIGHT ∧
      (setRotation 3 s).1.height = ILI9341_TFTWIDTH) :=
  ⟨⟨rfl, rfl, rfl⟩, ⟨rfl, rfl, rfl⟩, ⟨rfl, rfl, rfl⟩, ⟨rfl, rfl, rfl⟩⟩

/-- C4: for every 8-bit input r, `setRotation(r)` produces the same trace and
the same final state (stored rotation, cached width and height) as
`setRotation(r mod 4)`. -/
theorem setRotation_mod4 (r : Nat) (_hr : r < 256) (s : DriverState) :
    setRotation r s = setRotation (r % 4) s := by
  have h4 : r % 4 % 4 = r % 4 := Nat.mod_mod_of_dvd r (dvd_refl 4)
  simp only [setRotation, h4]

/-- C4 witness at r = 7. -/
theorem setRotation_mod4_witness :
    (7 : Nat) < 256 ∧
      setRotation 7 ⟨-1, 0, 240, 320⟩ = setRotation (7 % 4) ⟨-1, 0, 240, 320⟩ :=
  ⟨by decide, setRotation_mod4 7 (by decide) ⟨-1, 0, 240, 320⟩⟩

/-- C5: without 16-bit overflow, `setAddrWindow(x1,y1,w,h)` emits the
column-address-set command with big-endian x1 then x2 = x1+w-1, the
row-address-set command with y1 then y2 = y1+h-1, then the RAM-write
command. -/
theorem setAddrWindow_no_overflow (x1 y1 w h : Nat)
    (_hx1 : x1 < 65536) (_hy1 : y1 < 65536) (_hw : w < 65536) (_hh : h < 65536)
    (hxlo : 1 ≤ x1 + w) (hxhi : x1 + w ≤ 65536)
    (hylo : 1 ≤ y1 + h) (hyhi : y1 + h ≤ 65536) :
    setAddrWindow x1 y1 w h =
      [Ev.cmd ILI9341_CASET] ++ w16 x1 ++ w16 (x1 + w - 1) ++
      [Ev.cmd ILI9341_PASET] ++ w16 y1 ++ w16 (y1 + h - 1) ++
      [Ev.cmd ILI9341_RAMWR] := by
  have hx : (x1 + w + 65535) % 65536 = x1 + w - 1 := by omega
  have hy : (y1 + h + 65535) % 65536 = y1 + h - 1 := by omega
  simp only [setAddrWindow, hx, hy]

/-- C5 witness: `setAddrWindow(10,20,5,8)` gives column-set(10,14),
row-set(20,27), RAM-write. -/
theorem setAddrWindow_no_overflow_witness :
    ((10 : Nat) < 65536 ∧ (20 : Nat) < 65536 ∧ (5 : Nat) < 65536 ∧ (8 : Nat) < 65536 ∧
      1 ≤ 10 + 5 ∧ 10 + 5 ≤ 65536 ∧ 1 ≤ 20 + 8 ∧ 20 + 8 ≤ 65536) ∧
    setAddrWindow 10 20 5 8 =
      [Ev.cmd ILI9341_CASET] ++ w16 10 ++ w16 14 ++
      [Ev.cmd ILI9341_PASET] ++ w16 20 ++ w16 27 ++
      [Ev.cmd ILI9341_RAMWR] :=
  ⟨by decide,
   setAddrWindow_no_overflow 10 20 5 8 (by decide) (by decide) (by decide) (by decide)
     (by decide) (by decide) (by decide) (by decide)⟩

/-- C2 counterexample: with the no-reset-pin sentinel, the trace of `begin`
contains three startWrite events, not exactly one startWrite/endWrite pair
as the claim states for both configurations. -/
theorem begin_three_transactions_counterexample :
    ((begin 0 ⟨-1, 0, 0, 0⟩).2).count Ev.startW = 3 ∧
    ¬ ((begin 0 ⟨-1, 0, 0, 0⟩).2).count Ev.startW = 1 := by decide

/-- C2 amended: every write of `begin` happens inside a properly scoped,
non-nested startWrite/endWrite acquisition, and all initialization-table
writes sit inside one single pair; the trace contains exactly one pair when a
hardware reset pin is configured and three pairs (software reset and
sleep-out each in their own) when it is not. -/
theorem begin_scoped_transactions (freq : Nat) (s : DriverState) :
    scopedOk (begin freq s).2 = true ∧
    ((begin freq s).2.count Ev.startW = if s.rst < 0 then 3 else 1) ∧
    ((begin freq s).2.count Ev.endW = if s.rst < 0 then 3 else 1) ∧
    ∃ pre : List Ev,
      (begin freq s).2 = pre ++ (Ev.startW :: (runInitTable initcmd ++ [Ev.endW])) ∧
      noScope (runInitTable initcmd) = true := by
  by_cases hr : s.rst < 0 <;>
    simp only [begin, hr, if_pos, if_neg, if_true, if_false, not_false_iff]
  · exact ⟨by decide, by decide, by decide, _, rfl, noScope_runInitTable⟩
  · exact ⟨by decide, by decide, by decide, [], rfl, noScope_runInitTable⟩

/-- C6: with no hardware reset pin (negative sentinel), `begin` emits software
reset, a 200-unit delay, sleep-out, a 10-unit delay, and only then the table
events; with a reset pin configured none of the extra commands or delays
appear: the trace is exactly the table events in their transaction, and
contains no software-reset command, no 200-unit and no 10-unit delay. -/
theorem begin_reset_sequence (freq : Nat) (s : DriverState) :
    (s.rst < 0 →
      (begin freq s).2 =
        [Ev.startW, Ev.cmd ILI9341_SWRESET, Ev.endW, Ev.wait 200,
         Ev.startW, Ev.cmd ILI9341_SLPOUT, Ev.endW, Ev.wait 10] ++
        (Ev.startW :: (specTableEvents ili9341Records ++ [Ev.endW]))) ∧
    (0 ≤ s.rst →
      (begin freq s).2 = Ev.startW :: (specTableEvents ili9341Records ++ [Ev.endW]) ∧
      Ev.cmd ILI9341_SWRESET ∉ (begin freq s).2 ∧
      Ev.wait 200 ∉ (begin freq s).2 ∧
      Ev.wait 10 ∉ (begin freq s).2) := by
  constructor
  · intro hr
    simp [begin, hr, runInitTable_initcmd_eq]
  · intro hr
    have hr' : ¬ s.rst < 0 := by omega
    refine ⟨by simp [begin, hr', runInitTable_initcmd_eq], ?_, ?_, ?_⟩ <;>
      · show _ ∉ (begin freq s).2
        simp only [begin, hr', if_neg, if_false, List.nil_append, not_false_iff]
        decide

/-- C6 witness at both configurations (reset pin absent and present). -/
theorem begin_reset_sequence_witness :
    ((begin 0 ⟨-1, 0, 0, 0⟩).2 =
      [Ev.startW, Ev.cmd ILI9341_SWRESET, Ev.endW, Ev.wait 200,
       Ev.startW, Ev.cmd ILI9341_SLPOUT, Ev.endW, Ev.wait 10] ++
      (Ev.startW :: (specTableEvents ili9341Records ++ [Ev.endW]))) ∧
    ((begin 0 ⟨5, 0, 0, 0⟩).2 = Ev.startW :: (specTableEvents ili9341Records ++ [Ev.endW]) ∧
     Ev.cmd ILI9341_SWRESET ∉ (begin 0 ⟨5, 0, 0, 0⟩).2 ∧
     Ev.wait 200 ∉ (begin 0 ⟨5, 0, 0, 0⟩).2 ∧
     Ev.wait 10 ∉ (begin 0 ⟨5, 0, 0, 0⟩).2) :=
  ⟨(begin_reset_sequence 0 ⟨-1, 0, 0, 0⟩).1 (by decide),
   (begin_reset_sequence 0 ⟨5, 0, 0, 0⟩).2 (by decide)⟩

/-- C7 counterexample: `setRotation` changes the stored `rotation` field, so
the in-memory state does not differ only in the cached width and height. -/
theorem cached_state_counterexample :
    (setRotation 1 ⟨-1, 0, 240, 320⟩).1.rotation ≠
      (⟨-1, 0, 240, 320⟩ : DriverState).rotation := by decide

/-- C7 amended: every public operation changes the in-memory state in at most
the stored rotation and the cached width and height: the reset-pin field is
never written, `begin` leaves the rotation unchanged, and `invertDisplay`,
`scrollTo` and `readcommand8` leave the whole state unchanged
(`setAddrWindow` is `const` and touches no state at all, as its state-free
type records). -/
theorem cached_state_amended (freq m y c i r : Nat) (b : Bool) (s : DriverState) :
    ((begin freq s).1.rst = s.rst ∧ (begin freq s).1.rotation = s.rotation) ∧
    (setRotation m s).1.rst = s.rst ∧
    (invertDisplay b s).1 = s ∧
    (scrollTo y s).1 = s ∧
    (readcommand8 c i r s).1 = s :=
  ⟨⟨rfl, rfl⟩, rfl, rfl, rfl, rfl⟩

/-- C8: `setAddrWindow` emits no startWrite/endWrite event at all, while
`begin`, `setRotation`, `invertDisplay`, `scrollTo` and `readcommand8` each
open and close their own properly scoped acquisitions around their writes
(at least one, every write inside one, none left open). -/
theorem setAddrWindow_no_transaction
    (x1 y1 w h freq m y c i r : Nat) (b : Bool) (s : DriverState) :
    noScope (setAddrWindow x1 y1 w h) = true ∧
    (scopedOk (begin freq s).2 = true ∧ 1 ≤ (begin freq s).2.count Ev.startW) ∧
    (scopedOk (setRotation m s).2 = true ∧ 1 ≤ (setRotation m s).2.count Ev.startW) ∧
    (scopedOk (invertDisplay b s).2 = true ∧ 1 ≤ (invertDisplay b s).2.count Ev.startW) ∧
    (scopedOk (scrollTo y s).2 = true ∧ 1 ≤ (scrollTo y s).2.count Ev.startW) ∧
    (scopedOk (readcommand8 c i r s).2.2 = true ∧
      1 ≤ (readcommand8 c i r s).2.2.count Ev.startW) := by
  refine ⟨?_, ⟨?_, ?_⟩, ⟨?_, ?_⟩, ⟨?_, ?_⟩, ⟨?_, ?_⟩, ⟨?_, ?_⟩⟩
  · simp [setAddrWindow, noScope, w16, notScope]
  · by_cases hr : s.rst < 0 <;>
      simp only [begin, hr, if_pos, if_neg, if_true, if_false, not_false_iff] <;> decide
  · by_cases hr : s.rst < 0 <;>
      simp only [begin, hr, if_pos, if_neg, if_true, if_false, not_false_iff] <;> decide
  · simp [setRotation, scopedOk, scopedAux]
  · simp [setRotation]
  · cases b <;> simp [invertDisplay, scopedOk, scopedAux]
  · cases b <;> simp [invertDisplay]
  · simp [scrollTo, scopedOk, scopedAux, w16]
  · simp [scrollTo, w16]
  · simp [readcommand8, scopedOk, scopedAux]
  · simp [readcommand8]

/-- C9 counterexample: at index 240 the byte sent after the vendor read-mode
command is 0 (the `uint8_t` truncation of 0x10 + 240), not 0x10 + 240. -/
theorem readcommand8_offset_counterexample :
    Ev.data (0x10 + 240) ∉ (readcommand8 0x04 240 0x42 ⟨-1, 0, 240, 320⟩).2.2 ∧
    Ev.data 0 ∈ (readcommand8 0x04 240 0x42 ⟨-1, 0, 240, 320⟩).2.2 := by decide

/-- C9 amended: `readcommand8(command, index)` opens exactly one scoped
transaction, inside it issues the vendor command 0xD9 with one data byte
equal to (0x10 + index) mod 256 — which equals 0x10 + index whenever
index < 0xF0 — then the target command, reads exactly one byte and returns
it unmodified, sending nothing else. -/
theorem readcommand8_contract (c i r : Nat) (s : DriverState) :
    readcommand8 c i r s =
      (s, r, [Ev.startW, Ev.cmd 0xD9, Ev.data ((0x10 + i) % 256),
              Ev.cmd c, Ev.readB, Ev.endW]) ∧
    scopedOk (readcommand8 c i r s).2.2 = true ∧
    (readcommand8 c i r s).2.2.count Ev.startW = 1 ∧
    (readcommand8 c i r s).2.2.count Ev.readB = 1 ∧
    (i < 0xF0 → (0x10 + i) % 256 = 0x10 + i) := by
  refine ⟨rfl, ?_, ?_, ?_, ?_⟩
  · simp [readcommand8, scopedOk, scopedAux]
  · simp [readcommand8]
  · simp [readcommand8]
  · intro hi
    omega

/-- C9 witness at index 4. -/
theorem readcommand8_contract_witness :
    readcommand8 0xD3 4 0x93 ⟨-1, 0, 240, 320⟩ =
      (⟨-1, 0, 240, 320⟩, 0x93,
       [Ev.startW, Ev.cmd 0xD9, Ev.data 0x14, Ev.cmd 0xD3, Ev.readB, Ev.endW]) ∧
    (0x10 + 4) % 256 = 0x10 + 4 :=
  ⟨(readcommand8_contract 0xD3 4 0x93 ⟨-1, 0, 240, 320⟩).1,
   (readcommand8_contract 0xD3 4 0x93 ⟨-1, 0, 240, 320⟩).2.2.2.2 (by decide)⟩

/-- C10: for all 16-bit inputs, including overflowing ones, `setAddrWindow`
is total and emits corners that wrap modulo 2^16: the second column value is
(x1 + w - 1) mod 2^16 and the second row value is (y1 + h - 1) mod 2^16, as
signed-integer remainders. -/
theorem setAddrWindow_wraps (x1 y1 w h : Nat)
    (_hx1 : x1 < 65536) (_hy1 : y1 < 65536) (_hw : w < 65536) (_hh : h < 65536) :
    setAddrWindow x1 y1 w h =
      [Ev.cmd ILI9341_CASET] ++ w16 x1 ++ w16 ((x1 + w + 65535) % 65536) ++
      [Ev.cmd ILI9341_PASET] ++ w16 y1 ++ w16 ((y1 + h + 65535) % 65536) ++
      [Ev.cmd ILI9341_RAMWR] ∧
    (((x1 + w + 65535) % 65536 : Nat) : Int) = ((x1 : Int) + (w : Int) - 1) % 65536 ∧
    (((y1 + h + 65535) % 65536 : Nat) : Int) = ((y1 : Int) + (h : Int) - 1) % 65536 := by
  refine ⟨rfl, ?_, ?_⟩ <;> omega

/-- C10 witness at overflowing corners: x1 + w - 1 = 66999 wraps to 1463 and
y1 + h - 1 = -1 wraps to 65535. -/
theorem setAddrWindow_wraps_witness :
    ((65000 : Nat) < 65536 ∧ (0 : Nat) < 65536 ∧ (2000 : Nat) < 65536) ∧
    (setAddrWindow 65000 0 2000 0 =
      [Ev.cmd ILI9341_CASET] ++ w16 65000 ++ w16 1463 ++
      [Ev.cmd ILI9341_PASET] ++ w16 0 ++ w16 65535 ++
      [Ev.cmd ILI9341_RAMWR] ∧
     ((1463 : Nat) : Int) = ((65000 : Int) + (2000 : Int) - 1) % 65536 ∧
     ((65535 : Nat) : Int) = ((0 : Int) + (0 : Int) - 1) % 65536) :=
  ⟨by decide,
   setAddrWindow_wraps 65000 0 2000 0 (by decide) (by decide) (by decide) (by decide)⟩

end ILI9341
